import Mathlib

/-!
Shallow embedding of `src/benchmark.py` (an Iceberg/Trino benchmarking
script) and proofs about it.

Modelling conventions:
* The external query engine (Trino, reached through a DB-API connection) is
  an abstract function `Engine` from the query text to either an
  `EngineResponse` (a duration and the fetched rows) or a
  `TrinoQueryError`.  The script never inspects row contents except
  `rows[0][0]` of `COUNT(*)` results, so rows are `List (List Int)`.
* Wall-clock time is a rational number threaded through a state `St`;
  `time.time()` reads the clock and a successful engine call advances it by
  the response's duration.  `St` also carries the `logger.error` log and
  the trace of every query text handed to the engine, in order.
* Python dicts (built by insertion, keys never repeated) are association
  lists `List (String × _)`; `d[k]` is `getD` / `List.lookup`.
* Python floats are modelled as ℚ, `np.mean` as sum / length.
* Exceptions are `Except TrinoQueryError`.
-/

namespace IcebergBench

/-- The engine client's native error type (`trino.exceptions.TrinoQueryError`). -/
structure TrinoQueryError where
  msg : String
deriving DecidableEq

/-- Rows fetched by `cursor.fetchall()`. -/
abbrev Rows := List (List Int)

/-- What the engine produces for one successfully executed query: how long
the call took and the fetched rows. -/
structure EngineResponse where
  duration : ℚ
  rows : Rows
deriving DecidableEq

/-- The external engine behind the DB-API connection: a response or a
`TrinoQueryError` for each query text. -/
abbrev Engine := String → Except TrinoQueryError EngineResponse

deriving instance DecidableEq for Except

/-- Ambient state threaded through the script: the wall clock, the
`logger.error` log, and the trace of all queries given to the engine. -/
structure St where
  clock : ℚ
  log : List String
  trace : List String
deriving DecidableEq

/-- Initial state. -/
def st0 : St := ⟨0, [], []⟩

/-- `execute_query(conn, query)` from `src/benchmark.py`:
reads `start_time`, runs the query, fetches rows, reads `end_time`, and
returns `(end_time - start_time, rows)`; on `TrinoQueryError` it logs
`"Query failed: ..."` and re-raises the same error.  Either way the engine
is invoked exactly once (the query is appended to the trace once). -/
def execute_query (conn : Engine) (query : String) (s : St) :
    Except TrinoQueryError (ℚ × Rows) × St :=
  match conn query with
  | Except.ok r =>
      let start_time := s.clock
      let end_time := s.clock + r.duration
      (Except.ok (end_time - start_time, r.rows),
        { clock := end_time, log := s.log, trace := s.trace ++ [query] })
  | Except.error e =>
      (Except.error e,
        { clock := s.clock, log := s.log ++ ["Query failed: " ++ e.msg],
          trace := s.trace ++ [query] })

/-- The schema-creation statement of `create_schema` (whitespace normalized). -/
def schema_query : String :=
  "CREATE SCHEMA IF NOT EXISTS example.benchmark WITH (location = \x27s3a://warehouse/benchmark\x27)"

/-- `create_schema(conn)`: runs the `CREATE SCHEMA` statement, discarding the
result; a `TrinoQueryError` propagates. -/
def create_schema (conn : Engine) (s : St) : Except TrinoQueryError Unit × St :=
  match execute_query conn schema_query s with
  | (Except.ok _, s1) => (Except.ok (), s1)
  | (Except.error e, s1) => (Except.error e, s1)

/-- The `CREATE or replace TABLE` statement for the orders table
(whitespace normalized). -/
def orders_create_query : String :=
  "CREATE or replace TABLE orders_table_without_bloom_filter WITH ( format = \x27PARQUET\x27 ) AS SELECT * FROM tpch.sf10.orders"

/-- `SELECT COUNT(*) FROM {table_name}`. -/
def count_query (table_name : String) : String :=
  "SELECT COUNT(*) FROM " ++ table_name

/-- The `query_templates` list of `create_tables`: customer-table variants
paired with their extra storage options. -/
def query_templates : List (String × String) :=
  [("customer_table_without_bloom_filter", ""),
   ("customer_table_with_bloom_filter",
     "parquet_bloom_filter_columns = ARRAY[\x27custkey\x27]"),
   ("customer_table_with_sorting", "sorted_by = ARRAY[\x27custkey\x27]"),
   ("customer_table_with_sorting_and_bloom_filter",
     "sorted_by = ARRAY[\x27custkey\x27], parquet_bloom_filter_columns = ARRAY[\x27custkey\x27]")]

/-- The f-string built in the loop of `create_tables`
(`{',' if options else ''}` inserts a comma exactly when options are
non-empty; whitespace normalized). -/
def customer_create_query (table_name options : String) : String :=
  "CREATE or replace TABLE " ++ table_name ++ " WITH ( format = \x27PARQUET\x27 " ++
    (if options = "" then "" else ",") ++ " " ++ options ++
    " ) AS SELECT * FROM tpch.sf10.customer"

/-- `rows[0][0]`: the single cell of a `COUNT(*)` result.  `COUNT(*)`
always yields exactly one single-column row, so the defaults are never
exercised on the engine's actual responses. -/
def firstCell (rows : Rows) : Int := (rows.headD []).headD 0

/-- The `for table_name, options in query_templates` loop body of
`create_tables`: create each customer variant, time it, then count its
rows; the first `TrinoQueryError` aborts the loop. -/
def create_customer_tables (conn : Engine) :
    List (String × String) → St → List (String × ℚ) → List (String × Int) →
    Except TrinoQueryError (List (String × ℚ) × List (String × Int)) × St
  | [], s, times, counts => (Except.ok (times, counts), s)
  | (table_name, options) :: rest, s, times, counts =>
    match execute_query conn (customer_create_query table_name options) s with
    | (Except.ok (t, _), s1) =>
      match execute_query conn (count_query table_name) s1 with
      | (Except.ok (_, rows), s2) =>
        create_customer_tables conn rest s2 (times ++ [(table_name, t)])
          (counts ++ [(table_name, firstCell rows)])
      | (Except.error e, s2) => (Except.error e, s2)
    | (Except.error e, s1) => (Except.error e, s1)

/-- `create_tables(conn)`: creates the orders table and its count, then the
four customer variants and their counts; any `TrinoQueryError` is caught,
logged as `"Failed to create tables: ..."` and re-raised, so the two
mappings are only returned when every statement succeeded. -/
def create_tables (conn : Engine) (s : St) :
    Except TrinoQueryError (List (String × ℚ) × List (String × Int)) × St :=
  let body :=
    match execute_query conn orders_create_query s with
    | (Except.ok (t0, _), s1) =>
      match execute_query conn (count_query "orders_table_without_bloom_filter") s1 with
      | (Except.ok (_, rows0), s2) =>
        create_customer_tables conn query_templates s2
          [("orders_table_without_bloom_filter", t0)]
          [("orders_table_without_bloom_filter", firstCell rows0)]
      | (Except.error e, s2) => (Except.error e, s2)
    | (Except.error e, s1) => (Except.error e, s1)
  match body with
  | (Except.ok v, s1) => (Except.ok v, s1)
  | (Except.error e, s1) =>
    (Except.error e, { s1 with log := s1.log ++ ["Failed to create tables: " ++ e.msg] })

/-- The fixed query templates of `benchmark_queries`; `\x7b\x7d` is the
`{}` placeholder of Python's `str.format` (whitespace normalized). -/
def queries : List String :=
  ["SELECT * FROM \x7b\x7d WHERE custkey = 500000",
   "SELECT COUNT(*) FROM \x7b\x7d WHERE custkey > 500000",
   "SELECT o.*, c.* FROM orders_table_without_bloom_filter o JOIN \x7b\x7d c ON o.custkey = c.custkey",
   "SELECT COUNT(*) FROM orders_table_without_bloom_filter o JOIN \x7b\x7d c ON o.custkey = c.custkey"]

/-- The fixed `table_names` list of `benchmark_queries`. -/
def table_names : List String :=
  ["customer_table_without_bloom_filter",
   "customer_table_with_bloom_filter",
   "customer_table_with_sorting",
   "customer_table_with_sorting_and_bloom_filter"]

/-- Replace each `\x7b\x7d` placeholder by the argument. -/
def formatChars (table : List Char) : List Char → List Char
  | [] => []
  | '\x7b' :: '\x7d' :: rest => table ++ formatChars table rest
  | c :: rest => c :: formatChars table rest

/-- `query.format(table)`: each template holds exactly one `\x7b\x7d`
placeholder, so Python's single-argument `str.format` is substitution of
the table name for the placeholder. -/
def format1 (template table : String) : String :=
  String.mk (formatChars table.data template.data)

/-- The inner `for query in queries` loop of `benchmark_queries`: execute
each formatted query and append its time; on `TrinoQueryError` log
`"Failed to execute query on ..."`, record nothing, and continue with the
remaining queries. -/
def bench_one_table (conn : Engine) (table : String) :
    List String → St → List ℚ → List ℚ × St
  | [], s, acc => (acc, s)
  | query :: rest, s, acc =>
    match execute_query conn (format1 query table) s with
    | (Except.ok (execution_time, _), s1) =>
        bench_one_table conn table rest s1 (acc ++ [execution_time])
    | (Except.error e, s1) =>
        bench_one_table conn table rest
          { s1 with
            log := s1.log ++ ["Failed to execute query on " ++ table ++ ": " ++ e.msg] }
          acc

/-- The outer `for table in table_names` loop of `benchmark_queries`,
building `results` in insertion order. -/
def bench_tables (conn : Engine) :
    List String → St → List (String × List ℚ) → List (String × List ℚ) × St
  | [], s, acc => (acc, s)
  | table :: rest, s, acc =>
    match bench_one_table conn table queries s [] with
    | (ts, s1) => bench_tables conn rest s1 (acc ++ [(table, ts)])

/-- `benchmark_queries(conn)`: `results = {table: [] for table in
table_names}` followed by the nested loops appending times is the same as
building the association list table by table. -/
def benchmark_queries (conn : Engine) (s : St) : List (String × List ℚ) × St :=
  bench_tables conn table_names s []

/-- `d.keys()` of an association list. -/
def keys {α : Type} (d : List (String × α)) : List String := d.map Prod.fst

/-- `d[k]` with a default for missing keys (the scripts only index keys
they know are present). -/
def getD {α : Type} (d : List (String × α)) (k : String) (dflt : α) : α :=
  match d.lookup k with
  | some v => v
  | none => dflt

/-- `np.mean` of a list of floats: sum divided by length. -/
def npMean (xs : List ℚ) : ℚ := xs.sum / (xs.length : ℚ)

/-- `num_runs = 3` in `main`. -/
def num_runs : ℕ := 3

/-- The `average_creation_times` dict comprehension of `main`: for each
table of the first run, the mean of that table's creation time over all
runs. -/
def average_creation_times (runs : List (List (String × ℚ))) :
    List (String × ℚ) :=
  (keys (runs.headD [])).map fun table =>
    (table, npMean (runs.map fun run => getD run table 0))

/-- The `average_query_results` dict comprehension of `main`: for each
table of the first run and each index into the first run's list for that
table, the mean over all runs of the time at that index. -/
def average_query_results (runs : List (List (String × List ℚ))) :
    List (String × List ℚ) :=
  (keys (runs.headD [])).map fun table =>
    (table, (List.range (getD (runs.headD []) table []).length).map fun i =>
      npMean (runs.map fun run => (getD run table []).getD i 0))

/-- The `for _ in range(num_runs)` loop of `main`: each iteration appends
`creation_times` to `creation_times_list` and `results` to
`query_results_list`, but REBINDS `row_counts` (the previous value is
discarded).  A `TrinoQueryError` raised by `create_tables` propagates. -/
def main_loop (conn : Engine) :
    ℕ → St → List (List (String × ℚ)) → List (List (String × List ℚ)) →
    Option (List (String × Int)) →
    Except TrinoQueryError
      (List (List (String × ℚ)) × List (List (String × List ℚ)) ×
        Option (List (String × Int))) × St
  | 0, s, creation_times_list, query_results_list, row_counts =>
      (Except.ok (creation_times_list, query_results_list, row_counts), s)
  | Nat.succ n, s, creation_times_list, query_results_list, _ =>
    match create_tables conn s with
    | (Except.ok (creation_times, row_counts), s1) =>
      match benchmark_queries conn s1 with
      | (results, s2) =>
        main_loop conn n s2 (creation_times_list ++ [creation_times])
          (query_results_list ++ [results]) (some row_counts)
    | (Except.error e, s1) => (Except.error e, s1)

/-- Ghost observer of the same iteration: the row counts captured by EVERY
run of the loop (`main` itself keeps only the last). -/
def runs_row_counts (conn : Engine) : ℕ → St → List (List (String × Int))
  | 0, _ => []
  | Nat.succ n, s =>
    match create_tables conn s with
    | (Except.ok (_, row_counts), s1) =>
      row_counts :: runs_row_counts conn n (benchmark_queries conn s1).2
    | (Except.error _, _) => []

/-- One `print` line of the reporting section of `main`. -/
inductive PrintLine
  | perfHeader (table : String)
  | queryTime (idx : ℕ) (seconds : ℚ)
  | creationTime (table : String) (seconds : ℚ)
  | rowCountLine (table : String) (count : Int)
deriving DecidableEq

/-- The print section of `main`: per-table query averages (queries numbered
from 1), then average creation times, then the row counts. -/
def main_report (avgQ : List (String × List ℚ)) (avgC : List (String × ℚ))
    (rcs : List (String × Int)) : List PrintLine :=
  (avgQ.flatMap fun p =>
    PrintLine.perfHeader p.1 ::
      p.2.enum.map fun q => PrintLine.queryTime (q.1 + 1) q.2)
  ++ avgC.map (fun p => PrintLine.creationTime p.1 p.2)
  ++ rcs.map (fun p => PrintLine.rowCountLine p.1 p.2)

/-- One rendered-and-saved bar chart of `plot_results`. -/
structure Chart where
  filename : String
  xlabels : List String
  heights : List ℚ
  title : String
deriving DecidableEq

/-- The `queries` list local to `plot_results` (single-line variants of the
benchmark templates). -/
def plot_queries : List String :=
  ["SELECT * FROM \x7b\x7d WHERE custkey = 500000",
   "SELECT COUNT(*) FROM \x7b\x7d WHERE custkey > 500000",
   "SELECT o.*, c.* FROM orders_table_without_bloom_filter o JOIN \x7b\x7d c ON o.custkey = c.custkey",
   "SELECT COUNT(*) FROM orders_table_without_bloom_filter o JOIN \x7b\x7d c ON o.custkey = c.custkey"]

/-- The uncaught Python exceptions `plot_results` can raise:
`IndexError` from `average_query_results[table][i]` when a table's
averaged list is shorter than the plot-query list, `KeyError` from
`average_creation_times[table]` when a table has no creation average. -/
inductive PlotError
  | indexError
  | keyError
deriving DecidableEq

/-- A Python list comprehension whose element expression can raise: built
left to right, the first failing element aborts the whole comprehension
(no partial list is observable). -/
def comprehend {α : Type} (f : String → Option α) : List String → Option (List α)
  | [] => some []
  | t :: rest =>
    match f t with
    | some v =>
      match comprehend f rest with
      | some vs => some (v :: vs)
      | none => none
    | none => none

/-- The `for i, query in enumerate(queries)` loop of `plot_results`: for
each query index build the heights
`[average_query_results[table][i] for table in table_names]` — which
raises `IndexError` if any table's list is too short — and save one
chart; an exception aborts the loop, keeping only the charts already
saved.  (`average_query_results[table]` itself cannot fail: `table`
ranges over that dict's own keys, so `getD` never takes its default.) -/
def plot_query_charts (avgQ : List (String × List ℚ)) :
    List (ℕ × String) → List Chart × Option PlotError
  | [] => ([], none)
  | (i, query) :: rest =>
    match comprehend (fun table => (getD avgQ table [])[i]?) (keys avgQ) with
    | some execution_times =>
      match plot_query_charts avgQ rest with
      | (cs, err) =>
        ({ filename := "results/execution_time_query_" ++ toString (i + 1) ++ ".png"
           xlabels := keys avgQ
           heights := execution_times
           title := "Average Execution Time for " ++ query } :: cs, err)
    | none => ([], some PlotError.indexError)

/-- `plot_results(average_query_results, average_creation_times)`: the
per-query charts `results/execution_time_query_{i+1}.png`, then — only if
none of them raised — the heights
`[average_creation_times[table] for table in table_names]` (raising
`KeyError` on a missing key) and the final chart
`results/table_creation_times.png`.  Returns the charts actually saved,
with the uncaught exception if one was raised. -/
def plot_results (avgQ : List (String × List ℚ)) (avgC : List (String × ℚ)) :
    List Chart × Option PlotError :=
  match plot_query_charts avgQ plot_queries.enum with
  | (cs, some e) => (cs, some e)
  | (cs, none) =>
    match comprehend (fun table => avgC.lookup table) (keys avgQ) with
    | some creation_times_list =>
      (cs ++ [{ filename := "results/table_creation_times.png"
                xlabels := keys avgQ
                heights := creation_times_list
                title := "Average Table Creation Times" }], none)
    | none => (cs, some PlotError.keyError)

/-- Modelled from the spec: the external query engine, which is not part of
this repository.  `CREATE ... AS SELECT * FROM src` stores a copy of the
source table's rows — the Bloom-filter and sorting options control
physical layout only, never row content — and `SELECT COUNT(*)` returns
the stored row count.  So counting any of the four customer variants
yields the customer source's row count, counting the orders table yields
the orders source's row count, and every other statement succeeds
returning no rows.  Durations are an arbitrary constant. -/
def modelEngine (customerCount ordersCount : Int) (dur : ℚ) : Engine := fun q =>
  if q = count_query "orders_table_without_bloom_filter" then
    Except.ok ⟨dur, [[ordersCount]]⟩
  else if table_names.any fun t => q == count_query t then
    Except.ok ⟨dur, [[customerCount]]⟩
  else Except.ok ⟨dur, []⟩

/-! Specification-side observers of what the engine does on a single
benchmark query, used to state the behaviour of `benchmark_queries`. -/

/-- The execution time `benchmark_queries` records for formatted query
`query` on `table`: the engine's duration on success, nothing on failure. -/
def succTime (conn : Engine) (table query : String) : Option ℚ :=
  match conn (format1 query table) with
  | Except.ok r => some r.duration
  | Except.error _ => none

/-- The duration by which one benchmark query advances the clock. -/
def durOf (conn : Engine) (table query : String) : ℚ :=
  match conn (format1 query table) with
  | Except.ok r => r.duration
  | Except.error _ => 0

/-- The log entries one benchmark query produces: nothing on success, the
`execute_query` entry followed by the `benchmark_queries` entry on failure. -/
def failLog (conn : Engine) (table query : String) : List String :=
  match conn (format1 query table) with
  | Except.ok _ => []
  | Except.error e =>
      ["Query failed: " ++ e.msg,
       "Failed to execute query on " ++ table ++ ": " ++ e.msg]

/-- Unfolding of the inner benchmark loop: recorded times are the durations
of the succeeding queries in template order, every query is traced, and
each failing query contributes its two log lines. -/
lemma bench_one_table_eq (conn : Engine) (table : String) :
    ∀ (qs : List String) (s : St) (acc : List ℚ),
      bench_one_table conn table qs s acc =
        (acc ++ qs.filterMap (succTime conn table),
         { clock := s.clock + (qs.map (durOf conn table)).sum,
           log := s.log ++ qs.flatMap (failLog conn table),
           trace := s.trace ++ qs.map (fun q => format1 q table) }) := by
  intro qs
  induction qs with
  | nil => intro s acc; simp [bench_one_table]
  | cons q rest ih =>
    intro s acc
    cases h : conn (format1 q table) with
    | ok r =>
      simp [bench_one_table, execute_query, h, ih, succTime, durOf, failLog,
        add_sub_cancel_left, add_assoc]
    | error e =>
      simp [bench_one_table, execute_query, h, ih, succTime, durOf, failLog,
        add_assoc]

/-- Unfolding of the outer benchmark loop over a list of tables. -/
lemma bench_tables_eq (conn : Engine) :
    ∀ (ts : List String) (s : St) (acc : List (String × List ℚ)),
      bench_tables conn ts s acc =
        (acc ++ ts.map (fun t => (t, queries.filterMap (succTime conn t))),
         { clock := s.clock +
             (ts.map fun t => (queries.map (durOf conn t)).sum).sum,
           log := s.log ++ ts.flatMap (fun t => queries.flatMap (failLog conn t)),
           trace := s.trace ++
             ts.flatMap (fun t => queries.map (fun q => format1 q t)) }) := by
  intro ts
  induction ts with
  | nil => intro s acc; simp [bench_tables]
  | cons t rest ih =>
    intro s acc
    simp [bench_tables, bench_one_table_eq, ih, add_assoc]

/-- Full behaviour of `benchmark_queries` on an arbitrary engine. -/
lemma benchmark_queries_eq (conn : Engine) (s : St) :
    benchmark_queries conn s =
      (table_names.map (fun t => (t, queries.filterMap (succTime conn t))),
       { clock := s.clock +
           (table_names.map fun t => (queries.map (durOf conn t)).sum).sum,
         log := s.log ++
           table_names.flatMap (fun t => queries.flatMap (failLog conn t)),
         trace := s.trace ++
           table_names.flatMap (fun t => queries.map (fun q => format1 q t)) }) := by
  simp [benchmark_queries, bench_tables_eq]

/-- `getD` of an association list built by mapping a function over its keys. -/
lemma getD_map_self {α : Type} (xs : List String) (f : String → α) (t : String)
    (d : α) (h : t ∈ xs) : getD (xs.map fun a => (a, f a)) t d = f t := by
  induction xs with
  | nil => cases h
  | cons x rest ih =>
    rcases eq_or_ne t x with hx | hx
    · subst hx; simp [getD, List.lookup]
    · have hbx : (t == x) = false := beq_eq_false_iff_ne.mpr hx
      have ht : t ∈ rest := by
        rcases List.mem_cons.mp h with h1 | h1
        · exact absurd h1 hx
        · exact h1
      simp only [List.map_cons, getD, List.lookup, hbx]
      exact ih ht

/-- A successful lookup means the key occurs among the keys. -/
lemma lookup_mem_keys {α : Type} (d : List (String × α)) (t : String) (v : α)
    (h : d.lookup t = some v) : t ∈ keys d := by
  induction d with
  | nil => simp [List.lookup] at h
  | cons p rest ih =>
    obtain ⟨k, b⟩ := p
    rcases eq_or_ne t k with hk | hk
    · simp [keys, hk]
    · have hbk : (t == k) = false := beq_eq_false_iff_ne.mpr hk
      simp only [List.lookup, hbk] at h
      have ht : t ∈ keys rest := ih h
      simp only [keys, List.map_cons] at ht ⊢
      exact List.mem_cons_of_mem _ ht

/-- When every query in the list succeeds, `filterMap succTime` records one
time per query. -/
lemma filterMap_succTime_length (conn : Engine) (t : String) :
    ∀ qs : List String, (∀ q ∈ qs, (conn (format1 q t)).isOk = true) →
      (qs.filterMap (succTime conn t)).length = qs.length := by
  intro qs
  induction qs with
  | nil => intro _; rfl
  | cons q rest ih =>
    intro h
    have hq := h q (List.mem_cons_self q rest)
    cases hc : conn (format1 q t) with
    | ok r =>
      simp [succTime, hc, ih fun x hx => h x (List.mem_cons_of_mem _ hx)]
    | error e => rw [hc] at hq; simp [Except.isOk, Except.toBool] at hq

/-- The keys of an association list built by mapping over its key list. -/
lemma keys_map_self {α : Type} (xs : List String) (f : String → α) :
    keys (xs.map fun a => (a, f a)) = xs := by
  induction xs with
  | nil => rfl
  | cons x rest ih =>
    simp only [keys, List.map_map, List.map_cons] at ih ⊢
    rw [ih]

/-- A concrete engine on which every statement succeeds with duration 1 and
a single-cell result. -/
def okEngine : Engine := fun _ => Except.ok ⟨1, [[7]]⟩

/-- A concrete engine that fails exactly on the first benchmark query
against the sorted customer table, with every other statement succeeding. -/
def failEngine1 : Engine := fun q =>
  if q = "SELECT * FROM customer_table_with_sorting WHERE custkey = 500000" then
    Except.error ⟨"node down"⟩
  else Except.ok ⟨1, [[7]]⟩

/-- Claim C1: if one formatted benchmark query raises the engine's native
error, `benchmark_queries` logs it, records no time for it, still hands
every (table, query) pair of the fixed lists to the engine in order, and
still returns the result mapping over all four tables. -/
theorem benchmark_failure_skipped_run_continues (conn : Engine) (s : St)
    (t q : String) (e : TrinoQueryError)
    (ht : t ∈ table_names) (hq : q ∈ queries)
    (hfail : conn (format1 q t) = Except.error e) :
    ("Failed to execute query on " ++ t ++ ": " ++ e.msg) ∈
        (benchmark_queries conn s).2.log ∧
    getD (benchmark_queries conn s).1 t [] = queries.filterMap (succTime conn t) ∧
    succTime conn t q = none ∧
    (benchmark_queries conn s).2.trace =
      s.trace ++ table_names.flatMap (fun t2 => queries.map (fun q2 => format1 q2 t2)) ∧
    keys (benchmark_queries conn s).1 = table_names := by
  rw [benchmark_queries_eq]
  dsimp only
  refine ⟨?_, ?_, ?_, rfl, ?_⟩
  · simp only [List.mem_append, List.mem_flatMap]
    right
    exact ⟨t, ht, q, hq, by simp [failLog, hfail]⟩
  · exact getD_map_self table_names _ t [] ht
  · simp [succTime, hfail]
  · exact keys_map_self table_names _

/-- Witness for C1 at a concrete engine and failing pair. -/
theorem benchmark_failure_skipped_run_continues_witness :
    ("Failed to execute query on " ++ "customer_table_with_sorting" ++ ": " ++ "node down") ∈
        (benchmark_queries failEngine1 st0).2.log ∧
    keys (benchmark_queries failEngine1 st0).1 = table_names := by
  have h := benchmark_failure_skipped_run_continues failEngine1 st0
    "customer_table_with_sorting" "SELECT * FROM \x7b\x7d WHERE custkey = 500000"
    ⟨"node down"⟩ (by decide) (by decide) (by rfl)
  exact ⟨h.1, h.2.2.2.2⟩

/-- Claim C9: the mapping `benchmark_queries` returns always has exactly
the four fixed customer tables as keys, each table's recorded times are
the succeeding queries' durations in template order, and with no failure
each list has one entry per query template. -/
theorem benchmark_results_keys_order (conn : Engine) (s : St) :
    keys (benchmark_queries conn s).1 = table_names ∧
    (∀ t, t ∈ table_names →
      getD (benchmark_queries conn s).1 t [] = queries.filterMap (succTime conn t)) ∧
    ((∀ t q, t ∈ table_names → q ∈ queries → (conn (format1 q t)).isOk = true) →
      ∀ t, t ∈ table_names →
        (getD (benchmark_queries conn s).1 t []).length = queries.length) := by
  rw [benchmark_queries_eq]
  dsimp only
  refine ⟨keys_map_self table_names _, ?_, ?_⟩
  · intro t ht
    exact getD_map_self table_names _ t [] ht
  · intro hok t ht
    rw [getD_map_self table_names _ t [] ht]
    exact filterMap_succTime_length conn t queries
      (fun q hq => hok t q ht hq)

/-- Witness for C9 at an all-succeeding engine. -/
theorem benchmark_results_keys_order_witness :
    keys (benchmark_queries okEngine st0).1 = table_names ∧
    (getD (benchmark_queries okEngine st0).1 "customer_table_with_bloom_filter" []).length =
      queries.length := by
  refine ⟨(benchmark_results_keys_order okEngine st0).1, ?_⟩
  exact (benchmark_results_keys_order okEngine st0).2.2 (fun _ _ _ _ => rfl) _ (by decide)

/-- Claim C3: on success `execute_query` returns the pair
(`end_time - start_time`, fetched rows) and appends the query to the trace
once; on the engine's native error it logs `"Query failed: ..."` and
returns the very same error, again invoking the engine exactly once (the
trace grows by one entry — no retry). -/
theorem execute_query_time_and_reraise (conn : Engine) (query : String) (s : St) :
    (∀ r, conn query = Except.ok r →
      execute_query conn query s =
        (Except.ok ((s.clock + r.duration) - s.clock, r.rows),
         { clock := s.clock + r.duration, log := s.log,
           trace := s.trace ++ [query] })) ∧
    (∀ e, conn query = Except.error e →
      execute_query conn query s =
        (Except.error e,
         { clock := s.clock, log := s.log ++ ["Query failed: " ++ e.msg],
           trace := s.trace ++ [query] })) := by
  constructor
  · intro r hr; simp [execute_query, hr]
  · intro e he; simp [execute_query, he]

/-- Witness for C3: both branches at concrete engines. -/
theorem execute_query_time_and_reraise_witness :
    execute_query okEngine "SELECT 1" st0 =
      (Except.ok ((st0.clock + 1) - st0.clock, [[7]]),
       { clock := st0.clock + 1, log := st0.log,
         trace := st0.trace ++ ["SELECT 1"] }) ∧
    execute_query (fun _ => Except.error ⟨"boom"⟩) "SELECT 1" st0 =
      (Except.error ⟨"boom"⟩,
       { clock := st0.clock, log := st0.log ++ ["Query failed: " ++ "boom"],
         trace := st0.trace ++ ["SELECT 1"] }) :=
  ⟨(execute_query_time_and_reraise okEngine "SELECT 1" st0).1 ⟨1, [[7]]⟩ rfl,
   (execute_query_time_and_reraise (fun _ => Except.error ⟨"boom"⟩) "SELECT 1" st0).2
     ⟨"boom"⟩ rfl⟩

/-- The queries the customer-variant loop of `create_tables` issues, in
order: for each template a create statement then a count. -/
def template_queries (tl : List (String × String)) : List String :=
  tl.flatMap fun p => [customer_create_query p.1 p.2, count_query p.1]

/-- Every query `create_tables` issues, in order. -/
def setup_queries : List String :=
  orders_create_query :: count_query "orders_table_without_bloom_filter" ::
    template_queries query_templates

/-- When the customer-variant loop returns its mappings, it has appended
exactly one key per template to each, and every one of its queries
succeeded on the engine. -/
lemma create_customer_tables_ok (conn : Engine) :
    ∀ (tl : List (String × String)) (s : St) (times : List (String × ℚ))
      (counts : List (String × Int)) (times2 : List (String × ℚ))
      (counts2 : List (String × Int)) (s2 : St),
      create_customer_tables conn tl s times counts =
          (Except.ok (times2, counts2), s2) →
        times2.map Prod.fst = times.map Prod.fst ++ tl.map Prod.fst ∧
        counts2.map Prod.fst = counts.map Prod.fst ++ tl.map Prod.fst ∧
        (∀ q ∈ template_queries tl, (conn q).isOk = true) := by
  intro tl
  induction tl with
  | nil =>
    intro s times counts times2 counts2 s2 h
    simp only [create_customer_tables, Prod.mk.injEq, Except.ok.injEq] at h
    obtain ⟨⟨h1, h2⟩, _⟩ := h
    simp [← h1, ← h2, template_queries]
  | cons p rest ih =>
    intro s times counts times2 counts2 s2 h
    obtain ⟨tn, opts⟩ := p
    cases h1 : conn (customer_create_query tn opts) with
    | error e =>
      simp only [create_customer_tables, execute_query, h1] at h
      simp at h
    | ok r =>
      cases h2 : conn (count_query tn) with
      | error e =>
        simp only [create_customer_tables, execute_query, h1, h2] at h
        simp at h
      | ok r2 =>
        simp only [create_customer_tables, execute_query, h1, h2] at h
        obtain ⟨ht, hc, hall⟩ := ih _ _ _ _ _ _ h
        refine ⟨?_, ?_, ?_⟩
        · simp only [List.map_append] at ht
          simp [ht, List.append_assoc]
        · simp only [List.map_append] at hc
          simp [hc, List.append_assoc]
        · intro q hq
          simp only [template_queries, List.flatMap_cons, List.mem_append,
            List.mem_cons, List.mem_singleton] at hq
          rcases hq with (hq | hq) | hq
          · subst hq; simp [h1, Except.isOk, Except.toBool]
          · rcases hq with hq | hq
            · subst hq; simp [h2, Except.isOk, Except.toBool]
            · cases hq
          · exact hall q (by simpa [template_queries] using hq)

/-- When the customer-variant loop raises, it raises the very error the
engine produced for one of its queries. -/
lemma create_customer_tables_error (conn : Engine) :
    ∀ (tl : List (String × String)) (s : St) (times : List (String × ℚ))
      (counts : List (String × Int)) (e : TrinoQueryError) (s2 : St),
      create_customer_tables conn tl s times counts = (Except.error e, s2) →
        ∃ q ∈ template_queries tl, conn q = Except.error e := by
  intro tl
  induction tl with
  | nil =>
    intro s times counts e s2 h
    simp [create_customer_tables] at h
  | cons p rest ih =>
    intro s times counts e s2 h
    obtain ⟨tn, opts⟩ := p
    cases h1 : conn (customer_create_query tn opts) with
    | error e1 =>
      simp only [create_customer_tables, execute_query, h1, Prod.mk.injEq,
        Except.error.injEq] at h
      exact ⟨customer_create_query tn opts, by simp [template_queries],
        by rw [h1, h.1]⟩
    | ok r =>
      cases h2 : conn (count_query tn) with
      | error e2 =>
        simp only [create_customer_tables, execute_query, h1, h2, Prod.mk.injEq,
          Except.error.injEq] at h
        exact ⟨count_query tn, by simp [template_queries], by rw [h2, h.1]⟩
      | ok r2 =>
        simp only [create_customer_tables, execute_query, h1, h2] at h
        obtain ⟨q, hq, hqe⟩ := ih _ _ _ _ _ h
        refine ⟨q, ?_, hqe⟩
        have hexp : template_queries ((tn, opts) :: rest) =
            customer_create_query tn opts :: count_query tn ::
              template_queries rest := by
          simp [template_queries]
        rw [hexp]
        exact List.mem_cons_of_mem _ (List.mem_cons_of_mem _ hq)

/-- Claim C4: a native query error anywhere inside `create_tables` —
creating any table or counting its rows — is logged as
`"Failed to create tables: ..."` and re-raised unchanged, and the two
mappings are only returned when every setup statement succeeded (no
partial result escapes on error). -/
theorem create_tables_error_fatal (conn : Engine) (s : St) :
    (∀ v s2, create_tables conn s = (Except.ok v, s2) →
      ∀ q ∈ setup_queries, (conn q).isOk = true) ∧
    (∀ e s2, create_tables conn s = (Except.error e, s2) →
      (∃ q ∈ setup_queries, conn q = Except.error e) ∧
      ("Failed to create tables: " ++ e.msg) ∈ s2.log) := by
  constructor
  · rintro ⟨times2, counts2⟩ s2 h q hq
    cases h0 : conn orders_create_query with
    | error e0 =>
      simp only [create_tables, execute_query, h0] at h
      simp at h
    | ok r0 =>
      cases h1 : conn (count_query "orders_table_without_bloom_filter") with
      | error e1 =>
        simp only [create_tables, execute_query, h0, h1] at h
        simp at h
      | ok r1 =>
        simp only [create_tables, execute_query, h0, h1] at h
        split at h
        case _ v2 s3 heq =>
          obtain ⟨_, _, hall⟩ := create_customer_tables_ok conn _ _ _ _ _ _ _
            (by rw [heq, ← h])
          simp only [setup_queries, List.mem_cons] at hq
          rcases hq with rfl | hq
          · simp [h0, Except.isOk, Except.toBool]
          rcases hq with rfl | hq
          · simp [h1, Except.isOk, Except.toBool]
          · exact hall q hq
        case _ e2 s3 heq => simp at h
  · rintro e s2 h
    cases h0 : conn orders_create_query with
    | error e0 =>
      simp only [create_tables, execute_query, h0, Prod.mk.injEq,
        Except.error.injEq] at h
      obtain ⟨he, hs⟩ := h
      subst he
      refine ⟨⟨orders_create_query, by simp [setup_queries], h0⟩, ?_⟩
      rw [← hs]
      simp
    | ok r0 =>
      cases h1 : conn (count_query "orders_table_without_bloom_filter") with
      | error e1 =>
        simp only [create_tables, execute_query, h0, h1, Prod.mk.injEq,
          Except.error.injEq] at h
        obtain ⟨he, hs⟩ := h
        subst he
        refine ⟨⟨count_query "orders_table_without_bloom_filter",
          by simp [setup_queries], h1⟩, ?_⟩
        rw [← hs]
        simp
      | ok r1 =>
        simp only [create_tables, execute_query, h0, h1] at h
        split at h
        case _ v2 s3 heq => simp at h
        case _ e2 s3 heq =>
          simp only [Prod.mk.injEq, Except.error.injEq] at h
          obtain ⟨he, hs⟩ := h
          subst he
          obtain ⟨q, hq, hqe⟩ := create_customer_tables_error conn _ _ _ _ _ _ heq
          refine ⟨⟨q, ?_, hqe⟩, ?_⟩
          · simp only [setup_queries, List.mem_cons]
            right; right; exact hq
          · rw [← hs]
            simp

/-- Witness for C4: an engine whose orders-table creation fails. -/
theorem create_tables_error_fatal_witness :
    (∃ q ∈ setup_queries,
      (fun (_ : String) => (Except.error ⟨"storage gone"⟩ :
          Except TrinoQueryError EngineResponse)) q =
        Except.error ⟨"storage gone"⟩) ∧
    ("Failed to create tables: " ++ "storage gone") ∈
      (create_tables (fun _ => Except.error ⟨"storage gone"⟩) st0).2.log := by
  have h := (create_tables_error_fatal (fun _ => Except.error ⟨"storage gone"⟩)
    st0).2 ⟨"storage gone"⟩
    (create_tables (fun _ => Except.error ⟨"storage gone"⟩) st0).2 (by rfl)
  exact h

/-- The five fixed setup tables: the orders table plus the four customer
variants. -/
def all_table_names : List String :=
  "orders_table_without_bloom_filter" :: table_names

/-- Claim C5: a successful `create_tables` returns creation-time and
row-count mappings over exactly the five fixed table names, each name
appearing exactly once, and `query_templates` pairs each customer variant
with exactly one option set. -/
theorem create_tables_key_sets (conn : Engine) (s : St)
    (times : List (String × ℚ)) (counts : List (String × Int))
    (h : (create_tables conn s).1 = Except.ok (times, counts)) :
    keys times = all_table_names ∧
    keys counts = all_table_names ∧
    all_table_names.Nodup ∧
    keys query_templates = table_names ∧
    (keys query_templates).Nodup := by
  have hpair : create_tables conn s =
      (Except.ok (times, counts), (create_tables conn s).2) := by
    rw [← h]
  cases h0 : conn orders_create_query with
  | error e0 =>
    simp only [create_tables, execute_query, h0] at hpair
    simp at hpair
  | ok r0 =>
    cases h1 : conn (count_query "orders_table_without_bloom_filter") with
    | error e1 =>
      simp only [create_tables, execute_query, h0, h1] at hpair
      simp at hpair
    | ok r1 =>
      simp only [create_tables, execute_query, h0, h1] at hpair
      split at hpair
      case _ v2 s3 heq =>
        obtain ⟨ht, hc, _⟩ := create_customer_tables_ok conn _ _ _ _ _ _ _
          (by rw [heq, ← hpair])
        refine ⟨?_, ?_, by decide, by decide, by decide⟩
        · rw [keys, ht]; rfl
        · rw [keys, hc]; rfl
      case _ e2 s3 heq => simp at hpair

/-- Witness for C5 at an all-succeeding engine. -/
theorem create_tables_key_sets_witness :
    keys [("orders_table_without_bloom_filter", (1 : ℚ)),
      ("customer_table_without_bloom_filter", 1),
      ("customer_table_with_bloom_filter", 1),
      ("customer_table_with_sorting", 1),
      ("customer_table_with_sorting_and_bloom_filter", 1)] = all_table_names ∧
    keys [("orders_table_without_bloom_filter", (7 : Int)),
      ("customer_table_without_bloom_filter", 7),
      ("customer_table_with_bloom_filter", 7),
      ("customer_table_with_sorting", 7),
      ("customer_table_with_sorting_and_bloom_filter", 7)] = all_table_names ∧
    all_table_names.Nodup := by
  have h := create_tables_key_sets okEngine st0
    [("orders_table_without_bloom_filter", (1 : ℚ)),
     ("customer_table_without_bloom_filter", 1),
     ("customer_table_with_bloom_filter", 1),
     ("customer_table_with_sorting", 1),
     ("customer_table_with_sorting_and_bloom_filter", 1)]
    [("orders_table_without_bloom_filter", (7 : Int)),
     ("customer_table_without_bloom_filter", 7),
     ("customer_table_with_bloom_filter", 7),
     ("customer_table_with_sorting", 7),
     ("customer_table_with_sorting_and_bloom_filter", 7)]
    (by norm_num [create_tables, create_customer_tables, execute_query, okEngine,
      st0, query_templates, customer_create_query, count_query,
      orders_create_query, firstCell])
  exact ⟨h.1, h.2.1, h.2.2.1⟩

/-- Claim C7: against the spec-modelled engine — where counting any
customer variant returns the row count of the shared source
`tpch.sf10.customer`, because the Bloom-filter and sorting options change
physical layout only — `create_tables` records the same row count for all
four customer variants (and the source counts for the orders table). -/
theorem create_tables_variant_counts_equal (customerCount ordersCount : Int)
    (dur : ℚ) (s : St) :
    (create_tables (modelEngine customerCount ordersCount dur) s).1.map Prod.snd =
      Except.ok [("orders_table_without_bloom_filter", ordersCount),
        ("customer_table_without_bloom_filter", customerCount),
        ("customer_table_with_bloom_filter", customerCount),
        ("customer_table_with_sorting", customerCount),
        ("customer_table_with_sorting_and_bloom_filter", customerCount)] ∧
    (∀ a ∈ table_names, ∀ b ∈ table_names,
      (create_tables (modelEngine customerCount ordersCount dur) s).1.map
          (fun v => getD v.2 a 0) =
        (create_tables (modelEngine customerCount ordersCount dur) s).1.map
          (fun v => getD v.2 b 0)) := by
  refine ⟨rfl, ?_⟩
  intro a ha b hb
  fin_cases ha <;> fin_cases hb <;> rfl

/-- Witness for C7 at concrete source row counts and variants. -/
theorem create_tables_variant_counts_equal_witness :
    (create_tables (modelEngine 25 9 0) st0).1.map
        (fun v => getD v.2 "customer_table_without_bloom_filter" 0) =
      (create_tables (modelEngine 25 9 0) st0).1.map
        (fun v => getD v.2 "customer_table_with_sorting_and_bloom_filter" 0) :=
  (create_tables_variant_counts_equal 25 9 0 st0).2
    "customer_table_without_bloom_filter" (by decide)
    "customer_table_with_sorting_and_bloom_filter" (by decide)

/-- Claim C6: the averaging used by the aggregator, applied to N ≥ 1
identical samples v, returns exactly v. -/
theorem npMean_replicate (N : ℕ) (v : ℚ) (h : 1 ≤ N) :
    npMean (List.replicate N v) = v := by
  have hN : (N : ℚ) ≠ 0 := Nat.cast_ne_zero.mpr (Nat.one_le_iff_ne_zero.mp h)
  rw [npMean, List.sum_replicate, List.length_replicate, nsmul_eq_mul,
    mul_div_cancel_left₀ v hN]

/-- Witness for C6 at three copies of 7/2. -/
theorem npMean_replicate_witness :
    1 ≤ 3 ∧ npMean (List.replicate 3 ((7 : ℚ) / 2)) = (7 : ℚ) / 2 :=
  ⟨by decide, npMean_replicate 3 ((7 : ℚ) / 2) (by decide)⟩

/-- `np.mean` of three values. -/
lemma npMean_three (a b c : ℚ) : npMean [a, b, c] = (a + b + c) / 3 := by
  rw [npMean]
  norm_num
  ring_nf

/-- `getD` of a mapped range at an in-range index. -/
lemma getD_map_range (f : ℕ → ℚ) (n i : ℕ) (h : i < n) :
    ((List.range n).map f).getD i 0 = f i := by
  rw [List.getD_eq_getElem?_getD]
  simp [List.getElem?_map, List.getElem?_range, h]

/-- Claim C2: with `num_runs = 3` runs, each of which recorded a value at
table `t` (and index `i` for per-query times), the averages `main`
computes are the arithmetic means of the three recorded values — the
same, equal number of runs contributes to every average. -/
theorem main_averages_are_arithmetic_mean
    (r1 r2 r3 : List (String × ℚ)) (q1 q2 q3 : List (String × List ℚ))
    (t : String) (v1 v2 v3 : ℚ) (l1 l2 l3 : List ℚ) (i : ℕ)
    (h1 : r1.lookup t = some v1) (h2 : r2.lookup t = some v2)
    (h3 : r3.lookup t = some v3)
    (g1 : q1.lookup t = some l1) (g2 : q2.lookup t = some l2)
    (g3 : q3.lookup t = some l3)
    (hi1 : i < l1.length) (_hi2 : i < l2.length) (_hi3 : i < l3.length) :
    ([r1, r2, r3].length = num_runs ∧ [q1, q2, q3].length = num_runs) ∧
    getD (average_creation_times [r1, r2, r3]) t 0 = (v1 + v2 + v3) / 3 ∧
    (getD (average_query_results [q1, q2, q3]) t []).getD i 0 =
      (l1.getD i 0 + l2.getD i 0 + l3.getD i 0) / 3 := by
  have e1 : getD r1 t 0 = v1 := by simp [getD, h1]
  have e2 : getD r2 t 0 = v2 := by simp [getD, h2]
  have e3 : getD r3 t 0 = v3 := by simp [getD, h3]
  have f1 : getD q1 t [] = l1 := by simp [getD, g1]
  have f2 : getD q2 t [] = l2 := by simp [getD, g2]
  have f3 : getD q3 t [] = l3 := by simp [getD, g3]
  have ht1 : t ∈ keys r1 := lookup_mem_keys r1 t v1 h1
  have htq1 : t ∈ keys q1 := lookup_mem_keys q1 t l1 g1
  refine ⟨⟨rfl, rfl⟩, ?_, ?_⟩
  · have hc : getD (average_creation_times [r1, r2, r3]) t 0 =
        npMean ([r1, r2, r3].map fun run => getD run t 0) := by
      simp only [average_creation_times, List.headD]
      exact getD_map_self (keys r1) _ t 0 ht1
    rw [hc]
    simp only [List.map_cons, List.map_nil, e1, e2, e3]
    exact npMean_three v1 v2 v3
  · have hq : getD (average_query_results [q1, q2, q3]) t [] =
        (List.range (getD q1 t []).length).map fun j =>
          npMean ([q1, q2, q3].map fun run => (getD run t []).getD j 0) := by
      simp only [average_query_results, List.headD]
      exact getD_map_self (keys q1) _ t []  htq1
    rw [hq, f1]
    rw [getD_map_range _ _ i hi1]
    simp only [List.map_cons, List.map_nil, f1, f2, f3]
    exact npMean_three _ _ _

/-- Witness for C2 at concrete three-run data. -/
theorem main_averages_are_arithmetic_mean_witness :
    getD (average_creation_times
        [[("a", (1 : ℚ))], [("a", 2)], [("a", 3)]]) "a" 0 = (1 + 2 + 3) / 3 ∧
    (getD (average_query_results
        [[("a", [(10 : ℚ)])], [("a", [20])], [("a", [30])]]) "a" []).getD 0 0 =
      ((10 : ℚ) + 20 + 30) / 3 := by
  have h := main_averages_are_arithmetic_mean
    [("a", (1 : ℚ))] [("a", 2)] [("a", 3)]
    [("a", [(10 : ℚ)])] [("a", [20])] [("a", [30])]
    "a" 1 2 3 [10] [20] [30] 0
    (by decide) (by decide) (by decide) (by decide) (by decide) (by decide)
    (by decide) (by decide) (by decide)
  refine ⟨h.2.1, ?_⟩
  have := h.2.2
  simpa using this

/-- A fallible comprehension over elements that all succeed yields one
value per element. -/
lemma comprehend_eq_some {α : Type} (f : String → Option α) :
    ∀ xs : List String, (∀ t ∈ xs, (f t).isSome = true) →
      ∃ vs, comprehend f xs = some vs ∧ vs.length = xs.length := by
  intro xs
  induction xs with
  | nil => intro _; exact ⟨[], rfl, rfl⟩
  | cons x rest ih =>
    intro h
    obtain ⟨v, hv⟩ := Option.isSome_iff_exists.mp (h x (List.mem_cons_self x rest))
    obtain ⟨vs, hvs, hlen⟩ := ih fun t ht => h t (List.mem_cons_of_mem _ ht)
    exact ⟨v :: vs, by simp [comprehend, hv, hvs], by simp [hlen]⟩

/-- When every chart index is in range for every table's averaged list,
the chart loop raises nothing and saves one chart per index, named by the
index. -/
lemma plot_query_charts_complete (avgQ : List (String × List ℚ)) :
    ∀ l : List (ℕ × String),
      (∀ p ∈ l, ∀ t ∈ keys avgQ, p.1 < (getD avgQ t []).length) →
      (plot_query_charts avgQ l).2 = none ∧
      (plot_query_charts avgQ l).1.map Chart.filename =
        l.map (fun p =>
          "results/execution_time_query_" ++ toString (p.1 + 1) ++ ".png") := by
  intro l
  induction l with
  | nil => intro _; exact ⟨rfl, rfl⟩
  | cons p rest ih =>
    intro h
    obtain ⟨i, query⟩ := p
    have hall : ∀ t ∈ keys avgQ, ((getD avgQ t [])[i]?).isSome = true := by
      intro t ht
      have hi := h (i, query) (List.mem_cons_self _ _) t ht
      rw [List.getElem?_eq_getElem hi]
      rfl
    obtain ⟨vs, hvs, _⟩ := comprehend_eq_some _ (keys avgQ) hall
    obtain ⟨ih1, ih2⟩ := ih fun p2 hp2 => h p2 (List.mem_cons_of_mem _ hp2)
    refine ⟨?_, ?_⟩ <;> simp [plot_query_charts, hvs, ih1, ih2]

/-- Claim C8, counterexample to the unconditional reading: when a table's
averaged list has one entry — exactly what `main` produces when a
benchmark query failed during the first run — `plot_results` saves only
`results/execution_time_query_1.png` and then raises `IndexError`; it does
not produce five files. -/
theorem plot_results_five_files_counterexample :
    (plot_results [("tbl", [(1 : ℚ)])] [("tbl", 2)]).1.map Chart.filename =
      ["results/execution_time_query_1.png"] ∧
    (plot_results [("tbl", [(1 : ℚ)])] [("tbl", 2)]).2 =
      some PlotError.indexError ∧
    ¬((plot_results [("tbl", [(1 : ℚ)])] [("tbl", 2)]).1.map Chart.filename =
      ["results/execution_time_query_1.png",
       "results/execution_time_query_2.png",
       "results/execution_time_query_3.png",
       "results/execution_time_query_4.png",
       "results/table_creation_times.png"]) := by
  refine ⟨?_, ?_, ?_⟩ <;> decide

/-- Claim C8 (amended): provided every table's averaged list has an entry
for each of the four plot queries and every table has an averaged creation
time — as on any run where no benchmark query failed during the first run
— `plot_results` raises nothing and renders exactly one chart per
benchmark query, `results/execution_time_query_1.png` …
`_4.png`, plus one chart of creation times,
`results/table_creation_times.png`: five image files in all; and `main`'s
print section reports every averaged metric. -/
theorem plot_results_five_files_when_complete (avgQ : List (String × List ℚ))
    (avgC : List (String × ℚ)) (rcs : List (String × Int))
    (hlen : ∀ t ∈ keys avgQ, plot_queries.length ≤ (getD avgQ t []).length)
    (hcov : ∀ t ∈ keys avgQ, (avgC.lookup t).isSome = true) :
    (plot_results avgQ avgC).2 = none ∧
    (plot_results avgQ avgC).1.map Chart.filename =
      ["results/execution_time_query_1.png",
       "results/execution_time_query_2.png",
       "results/execution_time_query_3.png",
       "results/execution_time_query_4.png",
       "results/table_creation_times.png"] ∧
    (plot_results avgQ avgC).1.length = plot_queries.length + 1 ∧
    (∀ t l, (t, l) ∈ avgQ →
      PrintLine.perfHeader t ∈ main_report avgQ avgC rcs) ∧
    (∀ t c, (t, c) ∈ avgC →
      PrintLine.creationTime t c ∈ main_report avgQ avgC rcs) := by
  have henum : ∀ p ∈ plot_queries.enum, ∀ t ∈ keys avgQ,
      p.1 < (getD avgQ t []).length := by
    intro p hp t ht
    have h4 : (4 : ℕ) ≤ (getD avgQ t []).length := hlen t ht
    fin_cases hp <;> (dsimp only; omega)
  obtain ⟨hq2, hq1⟩ := plot_query_charts_complete avgQ plot_queries.enum henum
  obtain ⟨vs, hvs, _⟩ :=
    comprehend_eq_some (fun table => avgC.lookup table) (keys avgQ) hcov
  cases hpq : plot_query_charts avgQ plot_queries.enum with
  | mk cs err =>
    rw [hpq] at hq1 hq2
    dsimp only at hq1 hq2
    subst hq2
    have hcs : cs.length = plot_queries.length := by
      have hlen2 := congrArg List.length hq1
      simpa using hlen2
    refine ⟨?_, ?_, ?_, ?_, ?_⟩
    · simp [plot_results, hpq, hvs]
    · simp only [plot_results, hpq, hvs, List.map_append, hq1]
      rfl
    · simp [plot_results, hpq, hvs, hcs]
    · intro t l hm
      simp only [main_report, List.mem_append, List.mem_flatMap]
      left; left
      exact ⟨(t, l), hm, by simp⟩
    · intro t c hm
      simp only [main_report, List.mem_append]
      left; right
      exact List.mem_map.mpr ⟨(t, c), hm, rfl⟩

/-- Witness for C8 (amended) at a one-table input with a complete average
list. -/
theorem plot_results_five_files_when_complete_witness :
    (plot_results [("tbl", [(1 : ℚ), 2, 3, 4])] [("tbl", 5)]).2 = none ∧
    (plot_results [("tbl", [(1 : ℚ), 2, 3, 4])] [("tbl", 5)]).1.map Chart.filename =
      ["results/execution_time_query_1.png",
       "results/execution_time_query_2.png",
       "results/execution_time_query_3.png",
       "results/execution_time_query_4.png",
       "results/table_creation_times.png"] ∧
    PrintLine.perfHeader "tbl" ∈
      main_report [("tbl", [(1 : ℚ), 2, 3, 4])] [("tbl", 5)] [] ∧
    PrintLine.creationTime "tbl" 5 ∈
      main_report [("tbl", [(1 : ℚ), 2, 3, 4])] [("tbl", 5)] [] := by
  have h := plot_results_five_files_when_complete
    [("tbl", [(1 : ℚ), 2, 3, 4])] [("tbl", 5)] [] (by decide) (by decide)
  exact ⟨h.1, h.2.1, h.2.2.2.1 "tbl" [1, 2, 3, 4] (by decide),
    h.2.2.2.2 "tbl" 5 (by decide)⟩

/-- The final value of a left fold that rebinds an `Option` to each list
element in turn: the last element, when there is one. -/
lemma foldl_rebind_getLast {α : Type} :
    ∀ (l : List α) (r0 : Option α), l ≠ [] →
      l.foldl (fun _ x => some x) r0 = l.getLast? := by
  intro l
  induction l with
  | nil => intro r0 h; exact absurd rfl h
  | cons x rest ih =>
    intro r0 _
    cases hr : rest with
    | nil => simp
    | cons y ys =>
      rw [List.foldl_cons, ← hr, ih (some x) (by simp [hr]), hr,
        List.getLast?_cons_cons]

/-- Invariant of `main`'s run loop: on normal completion, the `row_counts`
variable holds the result of rebinding it to each run's row counts in
order, and there was one recording per iteration. -/
lemma main_loop_row_counts_aux (conn : Engine) :
    ∀ (n : ℕ) (s : St) (ctl : List (List (String × ℚ)))
      (qrl : List (List (String × List ℚ)))
      (r0 : Option (List (String × Int)))
      (c : List (List (String × ℚ))) (q : List (List (String × List ℚ)))
      (r : Option (List (String × Int))) (s2 : St),
      main_loop conn n s ctl qrl r0 = (Except.ok (c, q, r), s2) →
        r = (runs_row_counts conn n s).foldl (fun _ x => some x) r0 ∧
        (runs_row_counts conn n s).length = n := by
  intro n
  induction n with
  | zero =>
    intro s ctl qrl r0 c q r s2 h
    simp only [main_loop, Prod.mk.injEq, Except.ok.injEq] at h
    obtain ⟨⟨_, _, hr⟩, _⟩ := h
    simp [runs_row_counts, ← hr]
  | succ n ih =>
    intro s ctl qrl r0 c q r s2 h
    cases hct : create_tables conn s with
    | mk res s1 =>
      cases res with
      | ok v =>
        obtain ⟨ct, rc⟩ := v
        cases hbq : benchmark_queries conn s1 with
        | mk results s3 =>
          simp only [main_loop, hct, hbq] at h
          obtain ⟨hfold, hlen⟩ := ih _ _ _ _ _ _ _ _ h
          constructor
          · rw [hfold]
            simp only [runs_row_counts, hct, hbq, List.foldl_cons]
          · simp only [runs_row_counts, hct, hbq, List.length_cons, hlen]
      | error e =>
        simp only [main_loop, hct] at h
        simp at h

/-- Claim C10: on normal completion of `main`'s `num_runs` iterations, the
`row_counts` the script goes on to print are exactly those captured by the
LAST run — the loop rebinds `row_counts` each iteration, so although all
`num_runs` runs record row counts, the earlier runs' counts are discarded
and never reported or aggregated. -/
theorem main_row_counts_last_run_only (conn : Engine) (s : St)
    (c : List (List (String × ℚ))) (q : List (List (String × List ℚ)))
    (r : Option (List (String × Int)))
    (h : (main_loop conn num_runs s [] [] none).1 = Except.ok (c, q, r)) :
    r = (runs_row_counts conn num_runs s).getLast? ∧
    (runs_row_counts conn num_runs s).length = num_runs := by
  cases hm : main_loop conn num_runs s [] [] none with
  | mk res s2 =>
    rw [hm] at h
    dsimp only at h
    rw [h] at hm
    obtain ⟨hfold, hlen⟩ := main_loop_row_counts_aux conn _ _ _ _ _ _ _ _ _ hm
    have hne : runs_row_counts conn num_runs s ≠ [] := by
      intro hnil
      rw [hnil] at hlen
      simp [num_runs] at hlen
    exact ⟨hfold.trans (foldl_rebind_getLast _ none hne), hlen⟩

/-- Witness for C10: three concrete runs against an all-succeeding engine. -/
theorem main_row_counts_last_run_only_witness :
    (some [("orders_table_without_bloom_filter", (7 : Int)),
      ("customer_table_without_bloom_filter", 7),
      ("customer_table_with_bloom_filter", 7),
      ("customer_table_with_sorting", 7),
      ("customer_table_with_sorting_and_bloom_filter", 7)] : Option _) =
      (runs_row_counts okEngine num_runs st0).getLast? ∧
    (runs_row_counts okEngine num_runs st0).length = num_runs := by
  have hyp : (main_loop okEngine (Nat.succ (Nat.succ (Nat.succ Nat.zero)))
        st0 [] [] none).1 =
      Except.ok (List.replicate 3 [("orders_table_without_bloom_filter", (1 : ℚ)),
        ("customer_table_without_bloom_filter", 1),
        ("customer_table_with_bloom_filter", 1),
        ("customer_table_with_sorting", 1),
        ("customer_table_with_sorting_and_bloom_filter", 1)],
       List.replicate 3 [("customer_table_without_bloom_filter", [(1 : ℚ), 1, 1, 1]),
        ("customer_table_with_bloom_filter", [1, 1, 1, 1]),
        ("customer_table_with_sorting", [1, 1, 1, 1]),
        ("customer_table_with_sorting_and_bloom_filter", [1, 1, 1, 1])],
       some [("orders_table_without_bloom_filter", (7 : Int)),
        ("customer_table_without_bloom_filter", 7),
        ("customer_table_with_bloom_filter", 7),
        ("customer_table_with_sorting", 7),
        ("customer_table_with_sorting_and_bloom_filter", 7)]) := by
    norm_num [main_loop, create_tables, create_customer_tables, execute_query,
      benchmark_queries, bench_tables, bench_one_table, okEngine, st0,
      queries, table_names, query_templates, firstCell, List.replicate]
  exact main_row_counts_last_run_only okEngine st0 _ _ _ hyp

end IcebergBench
